import Mathlib

/-!
Verification development for the starfield-neo4j repository.

The repository is a browser 3D "star map": `src/services/neo4j.service.js`
wraps a Neo4j driver in four read operations, `src/components/StarView.js`
fetches the records and renders one glowing node per kept record, and
`src/data/tempPapers.js` is a static/randomly generated fallback data set.

This file embeds those parts shallowly:

* JavaScript objects are association lists with JS object-literal
  semantics (a later binding for a key overrides an earlier one);
* the graph database is a list of nodes and undirected relationships,
  and the handful of Cypher queries the service issues are an AST with a
  small evaluator (the AST also carries a write form, `createNode`,
  standing for Cypher's write clauses, which the service never issues);
* the driver is an oracle that may fail at session creation, at each
  query, and at `verifyConnectivity`; each service operation is a
  function from the oracle to a result together with a trace of events
  (session open/close, queries issued), mirroring the `try/catch/finally`
  control flow of the source;
* `Math.random()` is an abstract stream of rationals in `[0, 1)`.
-/

/-- JavaScript values as they occur in this code base. -/
inductive JsVal where
  | str (s : String)
  | num (q : ℚ)
  | boolV (b : Bool)
  | nullV
  | undef
  | strList (ls : List String)
deriving DecidableEq, Repr

/-- A JavaScript object: key/value bindings in insertion order. -/
abbrev JsObj := List (String × JsVal)

/-- Setting a field of a JS object: an existing key is overwritten in
place, a new key is appended (JS object literal / spread semantics). -/
def setField (o : JsObj) (k : String) (v : JsVal) : JsObj :=
  if o.any (fun kv => kv.1 == k) then
    o.map (fun kv => if kv.1 == k then (k, v) else kv)
  else
    o ++ [(k, v)]

/-- Spreading `extra` over `base`, as in `\x7b ...base, ...extra \x7d`:
later bindings win. -/
def jsSpread (base extra : JsObj) : JsObj :=
  extra.foldl (fun o kv => setField o kv.1 kv.2) base

/-- Reading a field of a JS object. -/
def lookupField (o : JsObj) (k : String) : Option JsVal :=
  (o.find? (fun kv => kv.1 == k)).map (fun kv => kv.2)

/-- `o.k` in JavaScript: a missing key reads as `undefined`. -/
def jsProp (o : JsObj) (k : String) : JsVal :=
  (lookupField o k).getD JsVal.undef

/-- JavaScript truthiness of the values we model. -/
def jsTruthy : JsVal → Bool
  | .str s => s ≠ ""
  | .num q => q ≠ 0
  | .boolV b => b
  | .nullV => false
  | .undef => false
  | .strList _ => true

/-- `typeof v === 'string'`. -/
def jsIsString : JsVal → Bool
  | .str _ => true
  | _ => false

/-- A Neo4j node: internal identity, labels, and a property map. -/
structure N4jNode where
  identity : Int
  labels : List String
  props : JsObj
deriving DecidableEq, Repr

/-- An (undirected, as matched by `-[r]-`) relationship between two
node identities. -/
structure N4jRel where
  src : Int
  tgt : Int
deriving DecidableEq, Repr

/-- The state of the graph database. -/
structure Graph where
  nodes : List N4jNode
  rels : List N4jRel
deriving DecidableEq, Repr

/-- The Cypher statements of this repository, plus `createNode`, which
stands for Cypher's write clauses; the service never issues it, and the
evaluator uses it to change the graph. -/
inductive Cypher where
  | returnOne
  | callDbLabels
  | callComponents
  | matchAllNodes
  | matchNodeById (pid : Int)
  | matchRelated (pid : Int)
  | createNode (n : N4jNode)
deriving DecidableEq, Repr

/-- The literal query text passed to `session.run` for each statement,
copied from `neo4j.service.js`. The parameterized queries mention only
the placeholder `$paperId`: their text does not depend on the input. -/
def queryTextOf : Cypher → String
  | .returnOne => "RETURN 1 as n"
  | .callDbLabels =>
      "CALL db.labels() YIELD label\n         RETURN collect(label) as labels"
  | .callComponents =>
      "CALL dbms.components() YIELD name, versions, edition RETURN *"
  | .matchAllNodes => "MATCH (n)\n         RETURN n, labels(n) as labels"
  | .matchNodeById _ =>
      "MATCH (n)\n         WHERE id(n) = $paperId\n         RETURN n"
  | .matchRelated _ =>
      "MATCH (n)-[r]-(related)\n         WHERE id(n) = $paperId\n         RETURN related\n         LIMIT 10"
  | .createNode _ => "CREATE (n)"

/-- The bound parameter object passed to `session.run` alongside the
query text (`\x7b paperId: neo4j.int(paperId) \x7d` for the two
parameterized queries, nothing for the rest). -/
def paramsOf : Cypher → JsObj
  | .matchNodeById pid => [("paperId", JsVal.num (pid : ℚ))]
  | .matchRelated pid => [("paperId", JsVal.num (pid : ℚ))]
  | _ => []

/-- A cell of a result record. -/
inductive Cell where
  | node (n : N4jNode)
  | strs (ls : List String)
  | strC (s : String)
  | int (i : Int)
deriving DecidableEq, Repr

/-- A result record: named cells, as accessed by `record.get(key)`. -/
abbrev Rec := List (String × Cell)

/-- Nodes reachable from identity `pid` over one relationship, in
relationship order, as matched by `(n)-[r]-(related)`. -/
def relatedTo (g : Graph) (pid : Int) : List N4jNode :=
  g.rels.filterMap (fun r =>
    if r.src == pid then g.nodes.find? (fun n => n.identity == r.tgt)
    else if r.tgt == pid then g.nodes.find? (fun n => n.identity == r.src)
    else none)

/-- Evaluation of a Cypher statement on a graph: the new graph state and
the result records. All statements the service issues leave the graph
unchanged; `createNode` adds a node. -/
def evalCypher (g : Graph) : Cypher → Graph × List Rec
  | .returnOne => (g, [[("n", Cell.int 1)]])
  | .callDbLabels =>
      (g, [[("labels", Cell.strs ((g.nodes.flatMap (fun n => n.labels)).dedup))]])
  | .callComponents => (g, [[("name", Cell.strC "Neo4j Kernel")]])
  | .matchAllNodes =>
      (g, g.nodes.map (fun n => [("n", Cell.node n), ("labels", Cell.strs n.labels)]))
  | .matchNodeById pid =>
      (g, (g.nodes.filter (fun n => n.identity == pid)).map
            (fun n => [("n", Cell.node n)]))
  | .matchRelated pid =>
      (g, if g.nodes.any (fun n => n.identity == pid) then
            ((relatedTo g pid).map (fun n => [("related", Cell.node n)])).take 10
          else [])
  | .createNode n => ({ g with nodes := g.nodes ++ [n] }, [])

/-- C2: both parameterized data-access queries pass a constant query
string to `session.run`; for every pair of `paperId` inputs the text is
identical, and the input reaches the call only through the bound
parameter object. -/
theorem parameterized_queries_constant_text (p q : Int) :
    queryTextOf (Cypher.matchNodeById p) = queryTextOf (Cypher.matchNodeById q) ∧
    queryTextOf (Cypher.matchRelated p) = queryTextOf (Cypher.matchRelated q) ∧
    paramsOf (Cypher.matchNodeById p) = [("paperId", JsVal.num (p : ℚ))] ∧
    paramsOf (Cypher.matchRelated p) = [("paperId", JsVal.num (p : ℚ))] :=
  ⟨rfl, rfl, rfl, rfl⟩

/-- A JavaScript error: the optional driver error `code` and the
`message`. `new Error(m)` carries no code. -/
structure JsErr where
  code : Option String
  message : String
deriving DecidableEq, Repr

/-- The session access mode. `getSession` always requests
`neo4j.session.READ`. -/
inductive AccessMode where
  | read
  | write
deriving DecidableEq, Repr

/-- The access mode `getSession` passes as `defaultAccessMode`. -/
def getSessionAccessMode : AccessMode := AccessMode.read

/-- Observable events of one service operation. -/
inductive Ev where
  | sessionOpen (mode : AccessMode)
  | query (q : Cypher)
  | connectivity
  | sessionClose
deriving DecidableEq, Repr

/-- The underlying driver as an oracle: session creation, each query
run, and `verifyConnectivity` may each fail with a `JsErr`. -/
structure Driver where
  newSession : Except JsErr Unit
  run : Cypher → Except JsErr (List Rec)
  connectivity : Except JsErr Unit

/-- `record.get(key)` when a node is expected. -/
def recNode (key : String) (r : Rec) : Option N4jNode :=
  match (r.find? (fun kv => kv.1 == key)).map (fun kv => kv.2) with
  | some (Cell.node n) => some n
  | _ => none

/-- `record.get(key)` when a list of strings is expected. -/
def recStrs (key : String) (r : Rec) : Option (List String) :=
  match (r.find? (fun kv => kv.1 == key)).map (fun kv => kv.2) with
  | some (Cell.strs ls) => some ls
  | _ => none

/-- The object `getAllPapers` builds from one record:
`\x7b id: node.identity.toString(), ...properties, labels \x7d`. -/
def recToPaperObj (r : Rec) : Option JsObj :=
  match recNode "n" r, recStrs "labels" r with
  | some n, some ls =>
      some (setField (jsSpread [("id", JsVal.str (toString n.identity))] n.props)
              "labels" (JsVal.strList ls))
  | _, _ => none

/-- The object `getPaperDetails` / `getRelatedPapers` build from a node:
`\x7b id: node.identity.toString(), ...node.properties \x7d`. -/
def nodeToDetailsObj (n : N4jNode) : JsObj :=
  jsSpread [("id", JsVal.str (toString n.identity))] n.props

/-- The message wrapping of `verifyConnection`'s catch block, which
branches on `error.code`. -/
def verifyWrap (e : JsErr) : JsErr :=
  if e.code == some "ServiceUnavailable" then
    ⟨none, "Neo4j service is not available. Please check if the database is running and port 7687 is accessible."⟩
  else if e.code == some "SecurityError" then
    ⟨none, "Authentication failed. Please check your credentials."⟩
  else
    ⟨none, "Connection verification failed: " ++ e.message⟩

/-- `verifyConnection()`: opens a session, runs `RETURN 1 as n`, calls
`driver.verifyConnectivity()`, runs `CALL dbms.components()...`, returns
`true`; any failure is wrapped by the catch block and rethrown; the
`finally` block closes the session on every path. -/
def verifyConnectionEx (d : Driver) : Except JsErr Bool × List Ev :=
  match d.newSession with
  | .error e => (.error e, [])
  | .ok _ =>
    match d.run Cypher.returnOne with
    | .error e =>
        (.error (verifyWrap e),
         [Ev.sessionOpen getSessionAccessMode, Ev.query Cypher.returnOne,
          Ev.sessionClose])
    | .ok _ =>
      match d.connectivity with
      | .error e =>
          (.error (verifyWrap e),
           [Ev.sessionOpen getSessionAccessMode, Ev.query Cypher.returnOne,
            Ev.connectivity, Ev.sessionClose])
      | .ok _ =>
        match d.run Cypher.callComponents with
        | .error e =>
            (.error (verifyWrap e),
             [Ev.sessionOpen getSessionAccessMode, Ev.query Cypher.returnOne,
              Ev.connectivity, Ev.query Cypher.callComponents, Ev.sessionClose])
        | .ok _ =>
            (.ok true,
             [Ev.sessionOpen getSessionAccessMode, Ev.query Cypher.returnOne,
              Ev.connectivity, Ev.query Cypher.callComponents, Ev.sessionClose])

/-- `getAllPapers()`: opens a session, runs the `db.labels` query, then
the `MATCH (n) RETURN n, labels(n)` query, and maps the records to paper
objects; a query failure is rethrown as
`Failed to fetch papers: <message>`; the session is closed on every
path. -/
def getAllPapersEx (d : Driver) : Except JsErr (List JsObj) × List Ev :=
  match d.newSession with
  | .error e => (.error e, [])
  | .ok _ =>
    match d.run Cypher.callDbLabels with
    | .error e =>
        (.error ⟨none, "Failed to fetch papers: " ++ e.message⟩,
         [Ev.sessionOpen getSessionAccessMode, Ev.query Cypher.callDbLabels,
          Ev.sessionClose])
    | .ok _ =>
      match d.run Cypher.matchAllNodes with
      | .error e =>
          (.error ⟨none, "Failed to fetch papers: " ++ e.message⟩,
           [Ev.sessionOpen getSessionAccessMode, Ev.query Cypher.callDbLabels,
            Ev.query Cypher.matchAllNodes, Ev.sessionClose])
      | .ok recs =>
          (.ok (recs.filterMap recToPaperObj),
           [Ev.sessionOpen getSessionAccessMode, Ev.query Cypher.callDbLabels,
            Ev.query Cypher.matchAllNodes, Ev.sessionClose])

/-- `getPaperDetails(paperId)`: opens a session, runs the parameterized
`MATCH ... WHERE id(n) = $paperId RETURN n` query, returns the object
for `records[0]` or `null`; a failure is rethrown as
`Failed to fetch paper details: <message>`; the session is closed on
every path. -/
def getPaperDetailsEx (d : Driver) (pid : Int) :
    Except JsErr (Option JsObj) × List Ev :=
  match d.newSession with
  | .error e => (.error e, [])
  | .ok _ =>
    match d.run (Cypher.matchNodeById pid) with
    | .error e =>
        (.error ⟨none, "Failed to fetch paper details: " ++ e.message⟩,
         [Ev.sessionOpen getSessionAccessMode,
          Ev.query (Cypher.matchNodeById pid), Ev.sessionClose])
    | .ok recs =>
        (.ok ((recs.head?.bind (recNode "n")).map nodeToDetailsObj),
         [Ev.sessionOpen getSessionAccessMode,
          Ev.query (Cypher.matchNodeById pid), Ev.sessionClose])

/-- `getRelatedPapers(paperId)`: opens a session, runs the parameterized
related-papers query (`LIMIT 10`), and maps each record's `related` node
to an object; a failure is rethrown as
`Failed to fetch related papers: <message>`; the session is closed on
every path. -/
def getRelatedPapersEx (d : Driver) (pid : Int) :
    Except JsErr (List JsObj) × List Ev :=
  match d.newSession with
  | .error e => (.error e, [])
  | .ok _ =>
    match d.run (Cypher.matchRelated pid) with
    | .error e =>
        (.error ⟨none, "Failed to fetch related papers: " ++ e.message⟩,
         [Ev.sessionOpen getSessionAccessMode,
          Ev.query (Cypher.matchRelated pid), Ev.sessionClose])
    | .ok recs =>
        (.ok ((recs.filterMap (recNode "related")).map nodeToDetailsObj),
         [Ev.sessionOpen getSessionAccessMode,
          Ev.query (Cypher.matchRelated pid), Ev.sessionClose])

/-- The Cypher statements appearing in a trace. -/
def traceQueries (tr : List Ev) : List Cypher :=
  tr.filterMap (fun e => match e with | Ev.query q => some q | _ => none)

/-- Session-open events in a trace. -/
def isOpenEv : Ev → Bool
  | Ev.sessionOpen _ => true
  | _ => false

/-- Session-close events in a trace. -/
def isCloseEv : Ev → Bool
  | Ev.sessionClose => true
  | _ => false

/-- Session open/close balance of a trace: as many closes as opens, and
at most one open. -/
def sessionBalance (tr : List Ev) : Prop :=
  (tr.filter isOpenEv).length = (tr.filter isCloseEv).length ∧
  (tr.filter isOpenEv).length ≤ 1

/-- A trace whose sessions are all opened in READ mode and whose queries
all leave the graph unchanged under the evaluator. -/
def readOnlyTrace (tr : List Ev) (g : Graph) : Prop :=
  (∀ m, Ev.sessionOpen m ∈ tr → m = AccessMode.read) ∧
  (∀ q, Ev.query q ∈ tr → (evalCypher g q).1 = g)

/-- Each query of an operation is issued at most once, and an underlying
failure of any issued query makes the operation fail. -/
def propagatesQueryFailure {α : Type} (d : Driver) (out : Except JsErr α × List Ev) : Prop :=
  (traceQueries out.2).Nodup ∧
  (∀ q e, Ev.query q ∈ out.2 → d.run q = .error e → ∃ e2, out.1 = .error e2)

theorem vcSessions (d : Driver) :
    sessionBalance (verifyConnectionEx d).2 ∧
    (d.newSession = .ok () →
      (((verifyConnectionEx d).2).filter isCloseEv).length = 1) := by
  cases hs : d.newSession with
  | error e => simp [verifyConnectionEx, hs, sessionBalance, isOpenEv, isCloseEv]
  | ok u =>
    cases hr1 : d.run Cypher.returnOne with
    | error e1 =>
        simp [verifyConnectionEx, hs, hr1, sessionBalance, isOpenEv, isCloseEv]
    | ok r1 =>
      cases hc : d.connectivity with
      | error e2 =>
          simp [verifyConnectionEx, hs, hr1, hc, sessionBalance, isOpenEv, isCloseEv]
      | ok u2 =>
        cases hr2 : d.run Cypher.callComponents with
        | error e3 =>
            simp [verifyConnectionEx, hs, hr1, hc, hr2, sessionBalance, isOpenEv,
              isCloseEv]
        | ok r2 =>
            simp [verifyConnectionEx, hs, hr1, hc, hr2, sessionBalance, isOpenEv,
              isCloseEv]

theorem gapSessions (d : Driver) :
    sessionBalance (getAllPapersEx d).2 ∧
    (d.newSession = .ok () →
      (((getAllPapersEx d).2).filter isCloseEv).length = 1) := by
  cases hs : d.newSession with
  | error e => simp [getAllPapersEx, hs, sessionBalance, isOpenEv, isCloseEv]
  | ok u =>
    cases hr1 : d.run Cypher.callDbLabels with
    | error e1 =>
        simp [getAllPapersEx, hs, hr1, sessionBalance, isOpenEv, isCloseEv]
    | ok r1 =>
      cases hr2 : d.run Cypher.matchAllNodes with
      | error e2 =>
          simp [getAllPapersEx, hs, hr1, hr2, sessionBalance, isOpenEv, isCloseEv]
      | ok r2 =>
          simp [getAllPapersEx, hs, hr1, hr2, sessionBalance, isOpenEv, isCloseEv]

theorem gpdSessions (d : Driver) (pid : Int) :
    sessionBalance (getPaperDetailsEx d pid).2 ∧
    (d.newSession = .ok () →
      (((getPaperDetailsEx d pid).2).filter isCloseEv).length = 1) := by
  cases hs : d.newSession with
  | error e => simp [getPaperDetailsEx, hs, sessionBalance, isOpenEv, isCloseEv]
  | ok u =>
    cases hr1 : d.run (Cypher.matchNodeById pid) with
    | error e1 =>
        simp [getPaperDetailsEx, hs, hr1, sessionBalance, isOpenEv, isCloseEv]
    | ok r1 =>
        simp [getPaperDetailsEx, hs, hr1, sessionBalance, isOpenEv, isCloseEv]

theorem grpSessions (d : Driver) (pid : Int) :
    sessionBalance (getRelatedPapersEx d pid).2 ∧
    (d.newSession = .ok () →
      (((getRelatedPapersEx d pid).2).filter isCloseEv).length = 1) := by
  cases hs : d.newSession with
  | error e => simp [getRelatedPapersEx, hs, sessionBalance, isOpenEv, isCloseEv]
  | ok u =>
    cases hr1 : d.run (Cypher.matchRelated pid) with
    | error e1 =>
        simp [getRelatedPapersEx, hs, hr1, sessionBalance, isOpenEv, isCloseEv]
    | ok r1 =>
        simp [getRelatedPapersEx, hs, hr1, sessionBalance, isOpenEv, isCloseEv]

theorem vcReadOnly (d : Driver) (g : Graph) :
    readOnlyTrace (verifyConnectionEx d).2 g := by
  cases hs : d.newSession with
  | error e => simp [verifyConnectionEx, hs, readOnlyTrace]
  | ok u =>
    cases hr1 : d.run Cypher.returnOne with
    | error e1 =>
        constructor <;> intro x hx <;>
          simp [verifyConnectionEx, hs, hr1, getSessionAccessMode] at hx <;>
          simp [hx, evalCypher]
    | ok r1 =>
      cases hc : d.connectivity with
      | error e2 =>
          constructor <;> intro x hx <;>
            simp [verifyConnectionEx, hs, hr1, hc, getSessionAccessMode] at hx <;>
            first
              | (rcases hx with hx | hx) <;> simp [hx, evalCypher]
              | simp [hx, evalCypher]
      | ok u2 =>
        cases hr2 : d.run Cypher.callComponents with
        | error e3 =>
            constructor <;> intro x hx <;>
              simp [verifyConnectionEx, hs, hr1, hc, hr2, getSessionAccessMode] at hx <;>
              first
                | (rcases hx with hx | hx) <;> simp [hx, evalCypher]
                | simp [hx, evalCypher]
        | ok r2 =>
            constructor <;> intro x hx <;>
              simp [verifyConnectionEx, hs, hr1, hc, hr2, getSessionAccessMode] at hx <;>
              first
                | (rcases hx with hx | hx) <;> simp [hx, evalCypher]
                | simp [hx, evalCypher]

theorem gapReadOnly (d : Driver) (g : Graph) :
    readOnlyTrace (getAllPapersEx d).2 g := by
  cases hs : d.newSession with
  | error e => simp [getAllPapersEx, hs, readOnlyTrace]
  | ok u =>
    cases hr1 : d.run Cypher.callDbLabels with
    | error e1 =>
        constructor <;> intro x hx <;>
          simp [getAllPapersEx, hs, hr1, getSessionAccessMode] at hx <;>
          simp [hx, evalCypher]
    | ok r1 =>
      cases hr2 : d.run Cypher.matchAllNodes with
      | error e2 =>
          constructor <;> intro x hx <;>
            simp [getAllPapersEx, hs, hr1, hr2, getSessionAccessMode] at hx <;>
            first
              | (rcases hx with hx | hx) <;> simp [hx, evalCypher]
              | simp [hx, evalCypher]
      | ok r2 =>
          constructor <;> intro x hx <;>
            simp [getAllPapersEx, hs, hr1, hr2, getSessionAccessMode] at hx <;>
            first
              | (rcases hx with hx | hx) <;> simp [hx, evalCypher]
              | simp [hx, evalCypher]

theorem gpdReadOnly (d : Driver) (pid : Int) (g : Graph) :
    readOnlyTrace (getPaperDetailsEx d pid).2 g := by
  cases hs : d.newSession with
  | error e => simp [getPaperDetailsEx, hs, readOnlyTrace]
  | ok u =>
    cases hr1 : d.run (Cypher.matchNodeById pid) with
    | error e1 =>
        constructor <;> intro x hx <;>
          simp [getPaperDetailsEx, hs, hr1, getSessionAccessMode] at hx <;>
          simp [hx, evalCypher]
    | ok r1 =>
        constructor <;> intro x hx <;>
          simp [getPaperDetailsEx, hs, hr1, getSessionAccessMode] at hx <;>
          simp [hx, evalCypher]

theorem grpReadOnly (d : Driver) (pid : Int) (g : Graph) :
    readOnlyTrace (getRelatedPapersEx d pid).2 g := by
  cases hs : d.newSession with
  | error e => simp [getRelatedPapersEx, hs, readOnlyTrace]
  | ok u =>
    cases hr1 : d.run (Cypher.matchRelated pid) with
    | error e1 =>
        constructor <;> intro x hx <;>
          simp [getRelatedPapersEx, hs, hr1, getSessionAccessMode] at hx <;>
          simp [hx, evalCypher]
    | ok r1 =>
        constructor <;> intro x hx <;>
          simp [getRelatedPapersEx, hs, hr1, getSessionAccessMode] at hx <;>
          simp [hx, evalCypher]

theorem vcNoRetry (d : Driver) : propagatesQueryFailure d (verifyConnectionEx d) := by
  cases hs : d.newSession with
  | error e => simp [verifyConnectionEx, hs, propagatesQueryFailure, traceQueries]
  | ok u =>
    cases hr1 : d.run Cypher.returnOne with
    | error e1 =>
        refine ⟨by simp [verifyConnectionEx, hs, hr1, traceQueries], ?_⟩
        intro q e hq he
        exact ⟨verifyWrap e1, by simp [verifyConnectionEx, hs, hr1]⟩
    | ok r1 =>
      cases hc : d.connectivity with
      | error e2 =>
          refine ⟨by simp [verifyConnectionEx, hs, hr1, hc, traceQueries], ?_⟩
          intro q e hq he
          exact ⟨verifyWrap e2, by simp [verifyConnectionEx, hs, hr1, hc]⟩
      | ok u2 =>
        cases hr2 : d.run Cypher.callComponents with
        | error e3 =>
            refine ⟨by simp [verifyConnectionEx, hs, hr1, hc, hr2, traceQueries], ?_⟩
            intro q e hq he
            exact ⟨verifyWrap e3, by simp [verifyConnectionEx, hs, hr1, hc, hr2]⟩
        | ok r2 =>
            refine ⟨by simp [verifyConnectionEx, hs, hr1, hc, hr2, traceQueries], ?_⟩
            intro q e hq he
            simp [verifyConnectionEx, hs, hr1, hc, hr2] at hq
            rcases hq with rfl | rfl
            · rw [hr1] at he; exact absurd he (by simp)
            · rw [hr2] at he; exact absurd he (by simp)

theorem gapNoRetry (d : Driver) : propagatesQueryFailure d (getAllPapersEx d) := by
  cases hs : d.newSession with
  | error e => simp [getAllPapersEx, hs, propagatesQueryFailure, traceQueries]
  | ok u =>
    cases hr1 : d.run Cypher.callDbLabels with
    | error e1 =>
        refine ⟨by simp [getAllPapersEx, hs, hr1, traceQueries], ?_⟩
        intro q e hq he
        exact ⟨⟨none, "Failed to fetch papers: " ++ e1.message⟩,
          by simp [getAllPapersEx, hs, hr1]⟩
    | ok r1 =>
      cases hr2 : d.run Cypher.matchAllNodes with
      | error e2 =>
          refine ⟨by simp [getAllPapersEx, hs, hr1, hr2, traceQueries], ?_⟩
          intro q e hq he
          exact ⟨⟨none, "Failed to fetch papers: " ++ e2.message⟩,
            by simp [getAllPapersEx, hs, hr1, hr2]⟩
      | ok r2 =>
          refine ⟨by simp [getAllPapersEx, hs, hr1, hr2, traceQueries], ?_⟩
          intro q e hq he
          simp [getAllPapersEx, hs, hr1, hr2] at hq
          rcases hq with rfl | rfl
          · rw [hr1] at he; exact absurd he (by simp)
          · rw [hr2] at he; exact absurd he (by simp)

theorem gpdNoRetry (d : Driver) (pid : Int) :
    propagatesQueryFailure d (getPaperDetailsEx d pid) := by
  cases hs : d.newSession with
  | error e => simp [getPaperDetailsEx, hs, propagatesQueryFailure, traceQueries]
  | ok u =>
    cases hr1 : d.run (Cypher.matchNodeById pid) with
    | error e1 =>
        refine ⟨by simp [getPaperDetailsEx, hs, hr1, traceQueries], ?_⟩
        intro q e hq he
        exact ⟨⟨none, "Failed to fetch paper details: " ++ e1.message⟩,
          by simp [getPaperDetailsEx, hs, hr1]⟩
    | ok r1 =>
        refine ⟨by simp [getPaperDetailsEx, hs, hr1, traceQueries], ?_⟩
        intro q e hq he
        simp [getPaperDetailsEx, hs, hr1] at hq
        subst hq
        rw [hr1] at he; exact absurd he (by simp)

theorem grpNoRetry (d : Driver) (pid : Int) :
    propagatesQueryFailure d (getRelatedPapersEx d pid) := by
  cases hs : d.newSession with
  | error e => simp [getRelatedPapersEx, hs, propagatesQueryFailure, traceQueries]
  | ok u =>
    cases hr1 : d.run (Cypher.matchRelated pid) with
    | error e1 =>
        refine ⟨by simp [getRelatedPapersEx, hs, hr1, traceQueries], ?_⟩
        intro q e hq he
        exact ⟨⟨none, "Failed to fetch related papers: " ++ e1.message⟩,
          by simp [getRelatedPapersEx, hs, hr1]⟩
    | ok r1 =>
        refine ⟨by simp [getRelatedPapersEx, hs, hr1, traceQueries], ?_⟩
        intro q e hq he
        simp [getRelatedPapersEx, hs, hr1] at hq
        subst hq
        rw [hr1] at he; exact absurd he (by simp)

/-- A fully functioning driver (used to exercise success paths). -/
def dFine : Driver :=
  { newSession := .ok (), run := fun _ => .ok [], connectivity := .ok () }

/-- A driver whose every query fails with message `boom` (used to
exercise error paths). -/
def dBoom : Driver :=
  { newSession := .ok (),
    run := fun _ => .error ⟨none, "boom"⟩,
    connectivity := .ok () }

/-- C3: each data-access operation wraps underlying errors with its own
message (`Failed to fetch papers: `, `Failed to fetch paper details: `,
`Failed to fetch related papers: ` followed by the driver message), and
none of them swallows an underlying query error and returns normally. -/
theorem dataAccess_errors_wrapped (d : Driver) (pid : Int) (e : JsErr) :
    (d.newSession = .ok () →
      (d.run Cypher.callDbLabels = .error e ∨
        ((∃ r, d.run Cypher.callDbLabels = .ok r) ∧
          d.run Cypher.matchAllNodes = .error e)) →
      (getAllPapersEx d).1 =
        .error ⟨none, "Failed to fetch papers: " ++ e.message⟩) ∧
    (d.newSession = .ok () → d.run (Cypher.matchNodeById pid) = .error e →
      (getPaperDetailsEx d pid).1 =
        .error ⟨none, "Failed to fetch paper details: " ++ e.message⟩) ∧
    (d.newSession = .ok () → d.run (Cypher.matchRelated pid) = .error e →
      (getRelatedPapersEx d pid).1 =
        .error ⟨none, "Failed to fetch related papers: " ++ e.message⟩) ∧
    (∀ q e2, Ev.query q ∈ (getAllPapersEx d).2 → d.run q = .error e2 →
      ∃ e3, (getAllPapersEx d).1 = .error e3) ∧
    (∀ q e2, Ev.query q ∈ (getPaperDetailsEx d pid).2 → d.run q = .error e2 →
      ∃ e3, (getPaperDetailsEx d pid).1 = .error e3) ∧
    (∀ q e2, Ev.query q ∈ (getRelatedPapersEx d pid).2 → d.run q = .error e2 →
      ∃ e3, (getRelatedPapersEx d pid).1 = .error e3) := by
  refine ⟨?_, ?_, ?_, (gapNoRetry d).2, (gpdNoRetry d pid).2, (grpNoRetry d pid).2⟩
  · intro hs hor
    rcases hor with h1 | ⟨⟨r, h1⟩, h2⟩
    · simp [getAllPapersEx, hs, h1]
    · simp [getAllPapersEx, hs, h1, h2]
  · intro hs h1
    simp [getPaperDetailsEx, hs, h1]
  · intro hs h1
    simp [getRelatedPapersEx, hs, h1]

/-- Witness for C3 at a concrete failing driver. -/
theorem dataAccess_errors_wrapped_witness :
    (getAllPapersEx dBoom).1 =
      .error ⟨none, "Failed to fetch papers: boom"⟩ ∧
    (getPaperDetailsEx dBoom 7).1 =
      .error ⟨none, "Failed to fetch paper details: boom"⟩ ∧
    (getRelatedPapersEx dBoom 7).1 =
      .error ⟨none, "Failed to fetch related papers: boom"⟩ := by
  refine ⟨?_, ?_, ?_⟩
  · exact (dataAccess_errors_wrapped dBoom 7 ⟨none, "boom"⟩).1 rfl (Or.inl rfl)
  · exact (dataAccess_errors_wrapped dBoom 7 ⟨none, "boom"⟩).2.1 rfl rfl
  · exact (dataAccess_errors_wrapped dBoom 7 ⟨none, "boom"⟩).2.2.1 rfl rfl

/-- C4: no retry logic: in every run of each operation the issued
Cypher queries are pairwise distinct (each issued at most once), and any
underlying query failure makes the operation propagate an error rather
than re-issue queries. -/
theorem dataAccess_no_retry (d : Driver) (pid : Int) :
    propagatesQueryFailure d (verifyConnectionEx d) ∧
    propagatesQueryFailure d (getAllPapersEx d) ∧
    propagatesQueryFailure d (getPaperDetailsEx d pid) ∧
    propagatesQueryFailure d (getRelatedPapersEx d pid) :=
  ⟨vcNoRetry d, gapNoRetry d, gpdNoRetry d pid, grpNoRetry d pid⟩

/-- Witness for C4 at a concrete failing driver. -/
theorem dataAccess_no_retry_witness :
    (traceQueries (getAllPapersEx dBoom).2).Nodup ∧
    (∃ e3, (getAllPapersEx dBoom).1 = .error e3) :=
  ⟨(dataAccess_no_retry dBoom 0).2.1.1,
   (dataAccess_no_retry dBoom 0).2.1.2 Cypher.callDbLabels ⟨none, "boom"⟩
     (by decide) rfl⟩

/-- C5: the service only reads: every session any operation opens is in
READ mode, and every query any operation issues leaves the graph state
unchanged under the Cypher evaluator. -/
theorem dataAccess_read_only (d : Driver) (pid : Int) (g : Graph) :
    readOnlyTrace (verifyConnectionEx d).2 g ∧
    readOnlyTrace (getAllPapersEx d).2 g ∧
    readOnlyTrace (getPaperDetailsEx d pid).2 g ∧
    readOnlyTrace (getRelatedPapersEx d pid).2 g :=
  ⟨vcReadOnly d g, gapReadOnly d g, gpdReadOnly d pid g, grpReadOnly d pid g⟩

/-- Witness for C5 at a concrete driver and graph. -/
theorem dataAccess_read_only_witness :
    (evalCypher (Graph.mk [] []) Cypher.callDbLabels).1 = Graph.mk [] [] ∧
    AccessMode.read = AccessMode.read :=
  ⟨(dataAccess_read_only dFine 0 (Graph.mk [] [])).2.1.2 Cypher.callDbLabels
     (by decide),
   (dataAccess_read_only dFine 0 (Graph.mk [] [])).1.1 AccessMode.read
     (by decide)⟩

/-- C8: every operation closes exactly as many sessions as it opens, at
most one, and whenever session creation succeeds it closes the session
exactly once, on success and error paths alike. -/
theorem dataAccess_sessions_closed (d : Driver) (pid : Int) :
    (sessionBalance (verifyConnectionEx d).2 ∧
      (d.newSession = .ok () →
        (((verifyConnectionEx d).2).filter isCloseEv).length = 1)) ∧
    (sessionBalance (getAllPapersEx d).2 ∧
      (d.newSession = .ok () →
        (((getAllPapersEx d).2).filter isCloseEv).length = 1)) ∧
    (sessionBalance (getPaperDetailsEx d pid).2 ∧
      (d.newSession = .ok () →
        (((getPaperDetailsEx d pid).2).filter isCloseEv).length = 1)) ∧
    (sessionBalance (getRelatedPapersEx d pid).2 ∧
      (d.newSession = .ok () →
        (((getRelatedPapersEx d pid).2).filter isCloseEv).length = 1)) :=
  ⟨vcSessions d, gapSessions d, gpdSessions d pid, grpSessions d pid⟩

/-- Witness for C8 at concrete drivers, on a success path and on an
error path. -/
theorem dataAccess_sessions_closed_witness :
    (((verifyConnectionEx dFine).2).filter isCloseEv).length = 1 ∧
    (((getAllPapersEx dBoom).2).filter isCloseEv).length = 1 :=
  ⟨(dataAccess_sessions_closed dFine 0).1.2 rfl,
   (dataAccess_sessions_closed dBoom 0).2.1.2 rfl⟩

/-- `getAllPapers` on a graph with a fully working driver: one object
per result record of the `MATCH (n) RETURN n, labels(n)` query. -/
def getAllPapersPure (g : Graph) : List JsObj :=
  ((evalCypher g Cypher.matchAllNodes).2).filterMap recToPaperObj

/-- `getPaperDetails` on a graph with a fully working driver:
`records[0]?.get('n')` turned into an object, `null` when there is no
record. -/
def getPaperDetailsPure (g : Graph) (pid : Int) : Option JsObj :=
  (((evalCypher g (Cypher.matchNodeById pid)).2).head?.bind (recNode "n")).map
    nodeToDetailsObj

/-- `getRelatedPapers` on a graph with a fully working driver. -/
def getRelatedPapersPure (g : Graph) (pid : Int) : List JsObj :=
  (((evalCypher g (Cypher.matchRelated pid)).2).filterMap (recNode "related")).map
    nodeToDetailsObj

theorem lookupField_map_set_ne (o : JsObj) (k1 k : String) (v : JsVal)
    (h : (k1 == k) = false) :
    lookupField (o.map (fun kv => if kv.1 == k1 then (k1, v) else kv)) k =
      lookupField o k := by
  induction o with
  | nil => rfl
  | cons hd tl ih =>
    by_cases hh : (hd.1 == k1) = true
    · have hk : (hd.1 == k) = false := by
        have h1 : hd.1 = k1 := by simpa using hh
        simpa [h1] using h
      simp [lookupField, List.find?, hh, h, hk] at ih ⊢
      exact ih
    · simp only [List.map_cons, if_neg hh]
      by_cases hk : (hd.1 == k) = true
      · simp [lookupField, List.find?, hk]
      · simp [lookupField, List.find?, hk] at ih ⊢
        exact ih

theorem lookupField_setField_ne (o : JsObj) (k1 k : String) (v : JsVal)
    (h : (k1 == k) = false) :
    lookupField (setField o k1 v) k = lookupField o k := by
  unfold setField
  by_cases ha : (o.any (fun kv => kv.1 == k1)) = true
  · rw [if_pos ha]
    exact lookupField_map_set_ne o k1 k v h
  · rw [if_neg ha]
    unfold lookupField
    rw [List.find?_append]
    have : List.find? (fun kv => kv.1 == k) [(k1, v)] = none := by
      simp [List.find?, h]
    rw [this]
    simp

theorem lookupField_jsSpread_not_mem (base : JsObj) (extra : JsObj) (k : String)
    (h : ∀ kv ∈ extra, (kv.1 == k) = false) :
    lookupField (jsSpread base extra) k = lookupField base k := by
  induction extra generalizing base with
  | nil => rfl
  | cons hd tl ih =>
    have hhd : (hd.1 == k) = false := h hd (List.mem_cons_self hd tl)
    have htl : ∀ kv ∈ tl, (kv.1 == k) = false := fun kv hkv =>
      h kv (List.mem_cons_of_mem hd hkv)
    unfold jsSpread at ih ⊢
    simp only [List.foldl_cons]
    rw [ih (setField base hd.1 hd.2) htl]
    exact lookupField_setField_ne base hd.1 k hd.2 hhd

/-- The `id` field of a details object is the identity string whenever
the node's own properties do not contain an `id` key. -/
theorem nodeToDetailsObj_id (n : N4jNode)
    (h : ∀ kv ∈ n.props, (kv.1 == "id") = false) :
    lookupField (nodeToDetailsObj n) "id" = some (JsVal.str (toString n.identity)) := by
  unfold nodeToDetailsObj
  rw [lookupField_jsSpread_not_mem _ _ _ h]
  rfl

/-- A graph with one node whose own properties carry an `id` key. -/
def gOverride : Graph :=
  Graph.mk [N4jNode.mk 5 [] [("id", JsVal.str "oops")]] []

/-- Counterexample to C9 as stated: the database holds a node with
identity 5, but since its properties carry an `id` key, the object
`getPaperDetails` returns has `"oops"` as its `id` field, not `"5"`
(the spread `...paper.properties` overrides the earlier `id` binding). -/
theorem getPaperDetails_id_overridden :
    (∃ n, n ∈ gOverride.nodes ∧ n.identity = 5) ∧
    getPaperDetailsPure gOverride 5 = some [("id", JsVal.str "oops")] ∧
    JsVal.str "oops" ≠ JsVal.str (toString (5 : Int)) :=
  ⟨⟨N4jNode.mk 5 [] [("id", JsVal.str "oops")], by decide⟩, rfl, by decide⟩

/-- C9 (amended): `getPaperDetails` returns `null` when no node has the
requested id; when one does, it returns the object built by binding `id`
to the identity string and then overlaying the node's properties, whose
`id` field is the identity string whenever the properties carry no `id`
key of their own. -/
theorem getPaperDetails_spec (g : Graph) (pid : Int) :
    ((∀ n ∈ g.nodes, n.identity ≠ pid) → getPaperDetailsPure g pid = none) ∧
    (∀ n, (g.nodes.filter (fun m => m.identity == pid)).head? = some n →
      getPaperDetailsPure g pid = some (nodeToDetailsObj n) ∧
      ((∀ kv ∈ n.props, (kv.1 == "id") = false) →
        lookupField (nodeToDetailsObj n) "id" =
          some (JsVal.str (toString n.identity)))) := by
  constructor
  · intro h
    unfold getPaperDetailsPure
    have hnil : g.nodes.filter (fun m => m.identity == pid) = [] :=
      List.filter_eq_nil_iff.mpr (by
        intro a ha
        simp [h a ha])
    simp [evalCypher, hnil]
  · intro n hn
    constructor
    · unfold getPaperDetailsPure
      simp only [evalCypher, List.head?_map, hn]
      rfl
    · intro hprops
      exact nodeToDetailsObj_id n hprops

/-- Witness for C9 (amended) on a concrete graph: a missing id gives
`null`, a present one gives the node object with the identity string as
`id`. -/
theorem getPaperDetails_spec_witness :
    getPaperDetailsPure (Graph.mk [N4jNode.mk 5 [] [("title", JsVal.str "A")]] []) 6 = none ∧
    getPaperDetailsPure (Graph.mk [N4jNode.mk 5 [] [("title", JsVal.str "A")]] []) 5 =
      some (nodeToDetailsObj (N4jNode.mk 5 [] [("title", JsVal.str "A")])) ∧
    lookupField (nodeToDetailsObj (N4jNode.mk 5 [] [("title", JsVal.str "A")])) "id" =
      some (JsVal.str (toString (5 : Int))) :=
  ⟨(getPaperDetails_spec (Graph.mk [N4jNode.mk 5 [] [("title", JsVal.str "A")]] []) 6).1
     (by decide),
   ((getPaperDetails_spec (Graph.mk [N4jNode.mk 5 [] [("title", JsVal.str "A")]] []) 5).2
     (N4jNode.mk 5 [] [("title", JsVal.str "A")]) (by decide)).1,
   ((getPaperDetails_spec (Graph.mk [N4jNode.mk 5 [] [("title", JsVal.str "A")]] []) 5).2
     (N4jNode.mk 5 [] [("title", JsVal.str "A")]) (by decide)).2 (by decide)⟩

/-- A graph whose node 2 is related to node 1 and carries an `id`
property of its own. -/
def gRelOverride : Graph :=
  Graph.mk [N4jNode.mk 1 [] [], N4jNode.mk 2 [] [("id", JsVal.str "zz")]]
    [N4jRel.mk 1 2]

/-- Counterexample to C10 as stated: the related node has identity 2,
but the object returned for it has `"zz"` as its `id` field (its own
`id` property overrides the identity binding). -/
theorem getRelatedPapers_id_overridden :
    getRelatedPapersPure gRelOverride 1 = [[("id", JsVal.str "zz")]] ∧
    JsVal.str "zz" ≠ JsVal.str (toString (2 : Int)) :=
  ⟨rfl, by decide⟩

/-- C10 (amended): `getRelatedPapers` returns at most 10 records
(`LIMIT 10`); each is the object built by binding `id` to the related
node's identity string and overlaying that node's properties, so its
`id` field is the identity string whenever those properties carry no
`id` key. -/
theorem getRelatedPapers_spec (g : Graph) (pid : Int) :
    (getRelatedPapersPure g pid).length ≤ 10 ∧
    (∀ o ∈ getRelatedPapersPure g pid, ∃ n, n ∈ relatedTo g pid ∧
      o = nodeToDetailsObj n ∧
      ((∀ kv ∈ n.props, (kv.1 == "id") = false) →
        lookupField o "id" = some (JsVal.str (toString n.identity)))) := by
  constructor
  · unfold getRelatedPapersPure
    rw [List.length_map]
    refine le_trans (List.length_filterMap_le _ _) ?_
    simp only [evalCypher]
    split
    · exact le_trans (List.length_take_le _ _) (by simp)
    · simp
  · intro o ho
    unfold getRelatedPapersPure at ho
    rcases List.mem_map.mp ho with ⟨n, hn, rfl⟩
    rcases List.mem_filterMap.mp hn with ⟨r, hr, hrn⟩
    simp only [evalCypher] at hr
    have hr2 : r ∈ (relatedTo g pid).map (fun n => [("related", Cell.node n)]) := by
      by_cases hc : (g.nodes.any (fun n => n.identity == pid)) = true
      · rw [if_pos hc] at hr
        exact List.take_subset _ _ hr
      · rw [if_neg hc] at hr
        exact absurd hr (List.not_mem_nil r)
    rcases List.mem_map.mp hr2 with ⟨m, hm, rfl⟩
    have hmn : m = n := by
      simpa [recNode] using hrn
    subst hmn
    exact ⟨m, hm, rfl, fun hp => nodeToDetailsObj_id m hp⟩

/-- Witness for C10 (amended) on a concrete graph. -/
theorem getRelatedPapers_spec_witness :
    (getRelatedPapersPure gRelOverride 1).length ≤ 10 ∧
    (∃ n, n ∈ relatedTo gRelOverride 1 ∧
      [("id", JsVal.str "zz")] = nodeToDetailsObj n ∧
      ((∀ kv ∈ n.props, (kv.1 == "id") = false) →
        lookupField [("id", JsVal.str "zz")] "id" =
          some (JsVal.str (toString n.identity)))) :=
  ⟨(getRelatedPapers_spec gRelOverride 1).1,
   (getRelatedPapers_spec gRelOverride 1).2 [("id", JsVal.str "zz")] (by decide)⟩

/-- `fetchData`'s post-processing in StarView:
`neo4jData.map(paper => paper.name)` followed by
`.filter(name => name && typeof name === 'string')`. -/
def papersToNames (papers : List JsObj) : List JsVal :=
  (papers.map (fun p => jsProp p "name")).filter
    (fun v => jsTruthy v && jsIsString v)

/-- The names StarView keeps in its `papers` state for a given graph. -/
def starViewNames (g : Graph) : List JsVal :=
  papersToNames (getAllPapersPure g)

/-- The number of PaperNode elements StarScene renders: one per entry of
the kept names (`papers.map((name, index) => <PaperNode .../>)`). -/
def paperNodeCount (g : Graph) : Nat :=
  (starViewNames g).length

/-- A one-record graph whose node has no `name` property. -/
def gNoName : Graph := Graph.mk [N4jNode.mk 1 ["Paper"] []] []

/-- Counterexample to C6 as stated: `getAllPapers` returns one record,
but StarView renders no PaperNode for it, because the record's `name`
is not a non-empty string and the `.filter(name && typeof name ===
'string')` step drops it. -/
theorem paperNode_dropped_record :
    (getAllPapersPure gNoName).length = 1 ∧ paperNodeCount gNoName = 0 :=
  ⟨rfl, rfl⟩

/-- C6 (amended): StarView renders exactly one PaperNode per record of
`getAllPapers` whose `name` field is a truthy string (a non-empty
string); records without such a name are dropped, none other. -/
theorem paperNode_count_spec (g : Graph) :
    paperNodeCount g =
      ((getAllPapersPure g).filter
        (fun p => jsTruthy (jsProp p "name") && jsIsString (jsProp p "name"))).length := by
  unfold paperNodeCount starViewNames papersToNames
  rw [List.filter_map]
  rw [List.length_map]
  rfl

/-- StarView's fetch-decision function. The guard
`if (!lastFetchTime) return true;` tests JS truthiness, so it takes the
early-true branch both when `lastFetchTime` is `null` (`none`) and when
it is the falsy number `0`; otherwise it fetches only when at least 24
hours (in milliseconds of `Date.now()`) have elapsed. -/
def shouldFetchNewData (lastFetchTime : Option ℚ) (now : ℚ) : Bool :=
  match lastFetchTime with
  | none => true
  | some t =>
      if t = 0 then true
      else decide (24 ≤ (now - t) / (1000 * 60 * 60))

/-- The queries `fetchData` causes: nothing when `shouldFetchNewData`
says the cached data is fresh, otherwise `verifyConnection` followed,
on success, by `getAllPapers`. -/
def fetchDataEx (lastFetchTime : Option ℚ) (now : ℚ) (d : Driver) : List Ev :=
  if shouldFetchNewData lastFetchTime now then
    match verifyConnectionEx d with
    | (.error _, tr) => tr
    | (.ok _, tr) => tr ++ (getAllPapersEx d).2
  else []

/-- Counterexample to C1 as stated: in the component state reached right
after a successful fetch (`lastFetchTime` set to a positive epoch
timestamp — here 1000 ms — less than 24 hours before `now`),
`shouldFetchNewData` returns `false` and the data-loading routine skips
the fetch entirely — a 24-hour caching check does exist. -/
theorem shouldFetch_caching_counterexample :
    shouldFetchNewData (some 1000) 1000 = false ∧
    fetchDataEx (some 1000) 1000 dFine = [] := by
  have h : shouldFetchNewData (some 1000) 1000 = false := by
    norm_num [shouldFetchNewData]
  exact ⟨h, by simp [fetchDataEx, h]⟩

/-- C1 (amended): `shouldFetchNewData` returns `true` exactly when no
last-fetch timestamp is stored, the stored one is the falsy number 0, or
the stored one is at least 24 hours old; whenever it returns `false`,
`fetchData` issues no database work at all. -/
theorem shouldFetch_spec (lft : Option ℚ) (now : ℚ) :
    (shouldFetchNewData lft now = true ↔
      (lft = none ∨
        ∃ t, lft = some t ∧ (t = 0 ∨ 24 * (1000 * 60 * 60) ≤ now - t))) ∧
    (∀ d, shouldFetchNewData lft now = false → fetchDataEx lft now d = []) := by
  constructor
  · cases lft with
    | none => simp [shouldFetchNewData]
    | some t =>
      by_cases ht : t = 0
      · subst ht
        refine ⟨fun _ => Or.inr ⟨0, rfl, Or.inl rfl⟩, fun _ => ?_⟩
        simp [shouldFetchNewData]
      · simp only [shouldFetchNewData, if_neg ht, decide_eq_true_eq]
        constructor
        · intro h
          refine Or.inr ⟨t, rfl, Or.inr ?_⟩
          calc (24 : ℚ) * (1000 * 60 * 60)
              ≤ ((now - t) / (1000 * 60 * 60)) * (1000 * 60 * 60) := by
                exact mul_le_mul_of_nonneg_right h (by norm_num)
            _ = now - t := by field_simp
        · rintro (h | ⟨t2, ht2, h⟩)
          · exact absurd h (by simp)
          · injection ht2 with h2
            subst h2
            rcases h with h0 | h
            · exact absurd h0 ht
            · rw [le_div_iff₀ (by norm_num : (0:ℚ) < 1000 * 60 * 60)]
              linarith
  · intro d h
    simp [fetchDataEx, h]

/-- Witness for C1 (amended) at a concrete stale state. -/
theorem shouldFetch_spec_witness : fetchDataEx (some 1000) 1000 dFine = [] :=
  (shouldFetch_spec (some 1000) 1000).2 dFine (by norm_num [shouldFetchNewData])

/-- A record of the fallback data set in `src/data/tempPapers.js`. -/
structure Paper where
  id : String
  name : String
  labels : List String
deriving DecidableEq, Repr

/-- The 11 static fallback records. -/
def tempPapers : List Paper := [
  Paper.mk "915" "国际学生活动 (UIC International Student Activities)" ["Paper", "Activity"],
  Paper.mk "916" "The Nexus (SHSID)" ["Paper", "Club"],
  Paper.mk "917" "学生会 (Student Council - SCIS)" ["Paper", "Organization"],
  Paper.mk "918" "茱莉亚学院合作项目 (Juilliard Collaboration Projects)" ["Paper", "Project"],
  Paper.mk "919" "Live 2 Drama (SHSID)" ["Paper", "Club"],
  Paper.mk "920" "MIT合作STEAM项目 (MIT Collaboration STEAM Projects)" ["Paper", "Project"],
  Paper.mk "921" "Phoenix Squadron Drone Club (Concordia Shanghai)" ["Paper", "Club"],
  Paper.mk "922" "World Scholar's Cup (SHSID)" ["Paper", "Competition"],
  Paper.mk "923" "ASDAN国际STEM挑战赛 (ASDAN International STEM Challenges)" ["Paper", "Competition"],
  Paper.mk "924" "Social Responsibility" ["Paper", "Concept"],
  Paper.mk "925" "Innovation" ["Paper", "Concept"]]

/-- The label pool of `generateMorePapers` (`labels` in the source). -/
def labelPool : List String :=
  ["Paper", "Activity", "Club", "Organization", "Project", "Competition", "Concept"]

/-- The activity names of `generateMorePapers`. -/
def activities : List String :=
  ["Science Fair", "Math Competition", "Debate Club", "Art Exhibition",
   "Music Festival", "Sports Tournament", "Cultural Exchange",
   "Research Project", "Community Service", "Environmental Initiative"]

/-- The school names of `generateMorePapers`. -/
def schools : List String := ["SHSID", "SCIS", "Concordia", "UIC"]

/-- `Math.floor(r * n)` for `r = Math.random()` in `[0, 1)`. -/
def randIndex (r : ℚ) (n : Nat) : Nat :=
  (Int.floor (r * (n : ℚ))).toNat

/-- The body of the inner label loop: push the label unless it is
already present (`if (!paperLabels.includes(randomLabel)) push`). -/
def addLabel (ls : List String) (l : String) : List String :=
  if l ∈ ls then ls else ls ++ [l]

/-- The inner loop `for (j = 0; j < numLabels; j++)`: each pass draws
one random value from the stream `f` at position `pos` and adds
`labels[Math.floor(Math.random() * (labels.length - 1)) + 1]`. Returns
the labels and the next stream position. -/
def pickLabels (f : Nat → ℚ) : Nat → List String → Nat → List String × Nat
  | 0, ls, pos => (ls, pos)
  | j + 1, ls, pos =>
      pickLabels f j (addLabel ls (labelPool.getD (randIndex (f pos) 6 + 1) ""))
        (pos + 1)

/-- One pass of the `for (i = 926; i <= 2000; i++)` loop: labels
(`numLabels = Math.floor(Math.random() * 3) + 1` draws), then an
activity and a school for the name, id `i.toString()`. -/
def mkGenPaper (f : Nat → ℚ) (i : Nat) (pos : Nat) : Paper × Nat :=
  let numLabels := randIndex (f pos) 3 + 1
  let lp := pickLabels f numLabels ["Paper"] (pos + 1)
  (Paper.mk (toString i)
     (activities.getD (randIndex (f lp.2) 10) "" ++ " (" ++
       schools.getD (randIndex (f (lp.2 + 1)) 4) "" ++ ")")
     lp.1,
   lp.2 + 2)

/-- The generated records for indices `i, i+1, ..., i+k-1`, threading
the random-stream position. -/
def genPapers (f : Nat → ℚ) : Nat → Nat → Nat → List Paper
  | _, 0, _ => []
  | i, k + 1, pos =>
      (mkGenPaper f i pos).1 :: genPapers f (i + 1) k (mkGenPaper f i pos).2

/-- `generateMorePapers()`: the static records followed by the records
generated for 926..2000, with the random stream `f` standing for the
successive values of `Math.random()`. -/
def generateMorePapers (f : Nat → ℚ) : List Paper :=
  tempPapers ++ genPapers f 926 1075 0

/-- `allPapers`, the exported fallback data set. -/
def allPapers (f : Nat → ℚ) : List Paper := generateMorePapers f

theorem randIndex_lt (r : ℚ) (h0 : 0 ≤ r) (h1 : r < 1) (n : Nat) (hn : 0 < n) :
    randIndex r n < n := by
  unfold randIndex
  have hfl : Int.floor (r * (n : ℚ)) < (n : Int) := by
    rw [Int.floor_lt]
    push_cast
    have hcast : (0 : ℚ) < (n : ℚ) := by exact_mod_cast hn
    nlinarith
  have hge : (0 : Int) ≤ Int.floor (r * (n : ℚ)) :=
    Int.floor_nonneg.mpr (by positivity)
  omega

theorem drawn_label_ne_paper (r : ℚ) (h0 : 0 ≤ r) (h1 : r < 1) :
    labelPool.getD (randIndex r 6 + 1) "" ≠ "Paper" := by
  have h := randIndex_lt r h0 h1 6 (by norm_num)
  set k := randIndex r 6 with hk
  interval_cases k <;> decide

theorem addLabel_nodup (ls : List String) (l : String) (h : ls.Nodup) :
    (addLabel ls l).Nodup := by
  unfold addLabel
  split
  · exact h
  · rename_i hm
    rw [List.nodup_append]
    refine ⟨h, List.nodup_singleton l, ?_⟩
    intro x hx hx2
    simp at hx2
    subst hx2
    exact hm hx

theorem addLabel_headq (ls : List String) (l : String)
    (h : ls.head? = some "Paper") : (addLabel ls l).head? = some "Paper" := by
  unfold addLabel
  split
  · exact h
  · cases ls with
    | nil => simp at h
    | cons a t => simpa using h

theorem addLabel_len_le (ls : List String) (l : String) :
    (addLabel ls l).length ≤ ls.length + 1 := by
  unfold addLabel
  split <;> simp

theorem addLabel_len_ge (ls : List String) (l : String) :
    ls.length ≤ (addLabel ls l).length := by
  unfold addLabel
  split <;> simp

theorem pickLabels_nodup (f : Nat → ℚ) (j : Nat) (ls : List String) (pos : Nat)
    (h : ls.Nodup) : (pickLabels f j ls pos).1.Nodup := by
  induction j generalizing ls pos with
  | zero => exact h
  | succ j ih => exact ih _ _ (addLabel_nodup _ _ h)

theorem pickLabels_headq (f : Nat → ℚ) (j : Nat) (ls : List String) (pos : Nat)
    (h : ls.head? = some "Paper") :
    (pickLabels f j ls pos).1.head? = some "Paper" := by
  induction j generalizing ls pos with
  | zero => exact h
  | succ j ih => exact ih _ _ (addLabel_headq _ _ h)

theorem pickLabels_len_le (f : Nat → ℚ) (j : Nat) (ls : List String) (pos : Nat) :
    (pickLabels f j ls pos).1.length ≤ ls.length + j := by
  induction j generalizing ls pos with
  | zero => simp [pickLabels]
  | succ j ih =>
      calc (pickLabels f (j + 1) ls pos).1.length
          ≤ (addLabel ls (labelPool.getD (randIndex (f pos) 6 + 1) "")).length + j :=
            ih _ _
        _ ≤ ls.length + 1 + j := by
            have := addLabel_len_le ls (labelPool.getD (randIndex (f pos) 6 + 1) "")
            omega
        _ = ls.length + (j + 1) := by omega

theorem pickLabels_len_ge (f : Nat → ℚ) (j : Nat) (ls : List String) (pos : Nat) :
    ls.length ≤ (pickLabels f j ls pos).1.length := by
  induction j generalizing ls pos with
  | zero => simp [pickLabels]
  | succ j ih =>
      calc ls.length
          ≤ (addLabel ls (labelPool.getD (randIndex (f pos) 6 + 1) "")).length :=
            addLabel_len_ge _ _
        _ ≤ (pickLabels f (j + 1) ls pos).1.length := ih _ _

theorem mkGenPaper_id (f : Nat → ℚ) (i pos : Nat) :
    (mkGenPaper f i pos).1.id = toString i := rfl

theorem pickLabels_two_le (f : Nat → ℚ) (m : Nat) (pos : Nat)
    (h0 : 0 ≤ f pos) (h1 : f pos < 1) :
    2 ≤ (pickLabels f (m + 1) ["Paper"] pos).1.length := by
  have hne := drawn_label_ne_paper (f pos) h0 h1
  have hadd : addLabel ["Paper"] (labelPool.getD (randIndex (f pos) 6 + 1) "") =
      ["Paper", labelPool.getD (randIndex (f pos) 6 + 1) ""] := by
    unfold addLabel
    rw [if_neg]
    · rfl
    · simpa using hne
  have hstep : pickLabels f (m + 1) ["Paper"] pos =
      pickLabels f m
        (addLabel ["Paper"] (labelPool.getD (randIndex (f pos) 6 + 1) ""))
        (pos + 1) := rfl
  rw [hstep, hadd]
  have hge := pickLabels_len_ge f m
    ["Paper", labelPool.getD (randIndex (f pos) 6 + 1) ""] (pos + 1)
  simpa using hge

theorem mkGenPaper_labels (f : Nat → ℚ) (i pos : Nat)
    (hf : ∀ k, 0 ≤ f k ∧ f k < 1) :
    (mkGenPaper f i pos).1.labels.Nodup ∧
    (mkGenPaper f i pos).1.labels.head? = some "Paper" ∧
    2 ≤ (mkGenPaper f i pos).1.labels.length ∧
    (mkGenPaper f i pos).1.labels.length ≤ 4 := by
  have heq : (mkGenPaper f i pos).1.labels =
      (pickLabels f (randIndex (f pos) 3 + 1) ["Paper"] (pos + 1)).1 := rfl
  rw [heq]
  refine ⟨pickLabels_nodup _ _ _ _ (by simp), pickLabels_headq _ _ _ _ rfl, ?_, ?_⟩
  · exact pickLabels_two_le f _ _ (hf (pos + 1)).1 (hf (pos + 1)).2
  · have hle := pickLabels_len_le f (randIndex (f pos) 3 + 1) ["Paper"] (pos + 1)
    have hlt : randIndex (f pos) 3 < 3 :=
      randIndex_lt (f pos) (hf pos).1 (hf pos).2 3 (by norm_num)
    simp only [List.length_singleton] at hle
    omega

theorem genPapers_length (f : Nat → ℚ) (k : Nat) :
    ∀ i pos : Nat, (genPapers f i k pos).length = k := by
  induction k with
  | zero => intro i pos; rfl
  | succ k ih => intro i pos; simp [genPapers, ih]

theorem genPapers_id (f : Nat → ℚ) (k : Nat) :
    ∀ i pos j : Nat, j < k →
      ((genPapers f i k pos)[j]?).map Paper.id = some (toString (i + j)) := by
  induction k with
  | zero => intro i pos j hj; omega
  | succ k ih =>
    intro i pos j hj
    cases j with
    | zero => simp [genPapers, mkGenPaper_id]
    | succ j =>
      have hrec := ih (i + 1) ((mkGenPaper f i pos).2) j (by omega)
      have harg : i + 1 + j = i + (j + 1) := by omega
      simp only [genPapers, List.getElem?_cons_succ]
      rw [hrec, harg]

theorem genPapers_labels (f : Nat → ℚ) (hf : ∀ k, 0 ≤ f k ∧ f k < 1) (k : Nat) :
    ∀ (i pos : Nat) (p : Paper), p ∈ genPapers f i k pos →
      p.labels.Nodup ∧ p.labels.head? = some "Paper" ∧
      2 ≤ p.labels.length ∧ p.labels.length ≤ 4 := by
  induction k with
  | zero => intro i pos p hp; simp [genPapers] at hp
  | succ k ih =>
    intro i pos p hp
    rw [genPapers, List.mem_cons] at hp
    rcases hp with rfl | hp
    · exact mkGenPaper_labels f i pos hf
    · exact ih _ _ _ hp

/-- C7: for every outcome of the random draws (a stream of values in
`[0, 1)`), the exported fallback data set has exactly 1086 records; the
record at position `k` has id `toString (915 + k)` (the 11 static
records "915".."925" followed by the generated "926".."2000" in
increasing order); every record's labels are duplicate-free and start
with "Paper"; and every generated record has between 2 and 4 labels. -/
theorem fallback_dataset_spec (f : Nat → ℚ) (hf : ∀ k, 0 ≤ f k ∧ f k < 1) :
    (allPapers f).length = 1086 ∧
    (∀ k, k < 1086 →
      ((allPapers f)[k]?).map Paper.id = some (toString (915 + k))) ∧
    (∀ p ∈ allPapers f, p.labels.Nodup ∧ p.labels.head? = some "Paper") ∧
    (∀ p ∈ genPapers f 926 1075 0,
      2 ≤ p.labels.length ∧ p.labels.length ≤ 4) := by
  refine ⟨?_, ?_, ?_, ?_⟩
  · simp [allPapers, generateMorePapers, genPapers_length, tempPapers]
  · intro k hk
    by_cases hk11 : k < 11
    · unfold allPapers generateMorePapers
      rw [List.getElem?_append_left (by simp [tempPapers]; omega)]
      interval_cases k <;> rfl
    · unfold allPapers generateMorePapers
      rw [List.getElem?_append_right (by simp [tempPapers]; omega)]
      have hlen : tempPapers.length = 11 := rfl
      rw [hlen]
      have hrec := genPapers_id f 1075 926 0 (k - 11) (by omega)
      have harg : 926 + (k - 11) = 915 + k := by omega
      rw [hrec, harg]
  · intro p hp
    unfold allPapers generateMorePapers at hp
    rw [List.mem_append] at hp
    rcases hp with hp | hp
    · exact (by decide :
        ∀ p ∈ tempPapers, p.labels.Nodup ∧ p.labels.head? = some "Paper") p hp
    · have h := genPapers_labels f hf 1075 926 0 p hp
      exact ⟨h.1, h.2.1⟩
  · intro p hp
    have h := genPapers_labels f hf 1075 926 0 p hp
    exact ⟨h.2.2.1, h.2.2.2⟩

/-- A concrete random stream: every draw is one half. -/
def halfStream : Nat → ℚ := fun _ => 1 / 2

/-- Witness for C7 at a concrete random stream. -/
theorem fallback_dataset_spec_witness : (allPapers halfStream).length = 1086 :=
  (fallback_dataset_spec halfStream (fun _ => by norm_num [halfStream])).1
